import Mathlib

/-!
Verification of the WhatsApp template validator (files
`src/lib/validators/template-schema.ts` and `src/lib/parsers/template-parser.ts`).

The TypeScript rule engine (`TemplateValidator`) accumulates diagnostics into
three mutable arrays (`errors`, `warnings`, `info`) while running eight passes
in a fixed order.  Each `addError` / `addWarning` / `addInfo` call appends to
exactly one of the three arrays, so the run is equivalently modelled as a
single ordered emission stream (the concatenation of the per-pass outputs,
each diagnostic carrying its severity) from which the three arrays are
recovered by filtering on severity; filtering preserves relative order, so the
reconstruction is exact.

JavaScript truthiness is modelled explicitly where the source relies on it:
`0` is a falsy number, `""` a falsy string, `undefined` a falsy optional, and
arrays (even empty ones) are truthy.
-/

/-- Severity of a diagnostic (the `severity` field of `ValidationError`). -/
inductive Severity
  | error
  | warning
  | info
deriving DecidableEq

/-- Diagnostic record, from `interface ValidationError` in `template-parser.ts`.
The validator never sets the optional `line` field, but it is kept for
fidelity. -/
structure ValidationError where
  field : String
  message : String
  suggestion : Option String
  line : Option Nat
  severity : Severity
deriving DecidableEq

/-- Result record, from `interface ValidationResult` in `template-parser.ts`. -/
structure ValidationResult where
  isValid : Bool
  errors : List ValidationError
  warnings : List ValidationError
  info : List ValidationError
deriving DecidableEq

/-- Template categories (`TemplateCategory` enum in `template-schema.ts`). -/
inductive TemplateCategory
  | MARKETING
  | UTILITY
  | AUTHENTICATION
deriving DecidableEq

/-- Template subcategories (`TemplateSubCategory` enum). -/
inductive TemplateSubCategory
  | ORDER_STATUS
deriving DecidableEq

/-- Header formats (`HeaderFormat` enum). -/
inductive HeaderFormat
  | TEXT
  | IMAGE
  | VIDEO
  | DOCUMENT
  | LOCATION
deriving DecidableEq

/-- OTP button subtypes (`OTPType` enum). -/
inductive OTPType
  | COPY_CODE
  | ONE_TAP
  | ZERO_TAP
deriving DecidableEq

/-- Flow button actions (`flow_action` in `FlowButtonSchema`). -/
inductive FlowAction
  | navigate
  | data_exchange
deriving DecidableEq

/-- The `example` object attached to components (`ExampleSchema`). -/
structure TemplateExample where
  header_text : Option (List String)
  header_url : Option (List String)
  body_text : Option (List (List String))
deriving DecidableEq

/-- Buttons, one constructor per member of the discriminated union
`ButtonSchema` in `template-schema.ts`.  The CATALOG, MPM and ORDER_DETAILS
buttons carry a fixed literal `text` (see `Button.textOf`). -/
inductive Button
  | quick_reply (text : String)
  | url (text : String) (url : String) (exampleData : Option (List String))
  | phone_number (text : String) (phone_number : String)
  | copy_code (exampleData : Option (List String))
  | otp (otp_type : OTPType) (text : Option String) (autofill_text : Option String)
      (package_name : Option String) (signature_hash : Option String)
      (zero_tap_terms_accepted : Option Bool)
  | catalog
  | mpm
  | flow (text : String) (flow_id : String) (navigate_screen : Option String)
      (flow_action : Option FlowAction)
  | order_details
  | voice_call (text : String)
deriving DecidableEq

/-- The `text` property of a button as the source reads it dynamically
(`button.text`); CATALOG, MPM and ORDER_DETAILS carry literal texts fixed by
their schemas, COPY_CODE has none. -/
def Button.textOf : Button → Option String
  | .quick_reply t => some t
  | .url t _ _ => some t
  | .phone_number t _ => some t
  | .copy_code _ => none
  | .otp _ t _ _ _ _ => t
  | .catalog => some "View catalog"
  | .mpm => some "View items"
  | .flow t _ _ _ => some t
  | .order_details => some "Review and Pay"
  | .voice_call t => some t

/-- Components, one constructor per member of `ComponentSchema`
(discriminated union of HEADER, BODY, FOOTER, BUTTONS). -/
inductive Component
  | header (format : Option HeaderFormat) (text : Option String)
      (exampleData : Option TemplateExample)
  | body (text : String) (add_security_recommendation : Option Bool)
      (exampleData : Option TemplateExample)
  | footer (text : String) (code_expiration_minutes : Option Nat)
  | buttons (buttons : List Button)
deriving DecidableEq

/-- Discriminator test `c.type === "HEADER"`. -/
def Component.isHeader : Component → Bool
  | .header _ _ _ => true
  | _ => false

/-- Discriminator test `c.type === "BODY"`. -/
def Component.isBody : Component → Bool
  | .body _ _ _ => true
  | _ => false

/-- Discriminator test `c.type === "FOOTER"`. -/
def Component.isFooter : Component → Bool
  | .footer _ _ => true
  | _ => false

/-- Discriminator test `c.type === "BUTTONS"`. -/
def Component.isButtons : Component → Bool
  | .buttons _ => true
  | _ => false

set_option synthInstance.maxHeartbeats 800000 in
/-- The root template object (`WhatsAppTemplateSchema` / type
`WhatsAppTemplate`).  `messageSendTtlSeconds` is a JavaScript number; an
integer model keeps sign information for the range checks. -/
structure WhatsAppTemplate where
  wabaId : Option String
  name : String
  language : String
  category : TemplateCategory
  subCategory : Option TemplateSubCategory
  messageSendTtlSeconds : Option Int
  components : List Component
deriving DecidableEq

/-- JavaScript truthiness of an optional string (`undefined` and `""` are
falsy). -/
def truthyStr : Option String → Bool
  | none => false
  | some s => s != ""

/-- JavaScript truthiness of an optional boolean (`undefined` and `false` are
falsy). -/
def truthyBool : Option Bool → Bool
  | none => false
  | some b => b

/-- The opening-brace character, `Char.ofNat 123`. -/
def lbrace : Char := Char.ofNat 123

/-- The closing-brace character, `Char.ofNat 125`. -/
def rbrace : Char := Char.ofNat 125

/-- Decimal value of a digit string, as `parseInt` computes it on the capture
group of the placeholder regex. -/
def digitsToNat (ds : List Char) : Nat :=
  ds.foldl (fun a c => a * 10 + (c.toNat - 48)) 0

/-- One fuelled step of the global regex scan (see `scanVars`).  At each start
position: if the input begins with two opening braces followed by one or more
digits and two closing braces, that is a match — record the parsed index and
continue after the match, exactly as `matchAll` advances `lastIndex`;
otherwise the match attempt fails and scanning resumes one character later.
Each recursive call consumes at least one character, so fuel equal to the
input length suffices. -/
def scanVarsFuel : Nat → List Char → List Nat
  | 0, _ => []
  | _ + 1, [] => []
  | fuel + 1, c :: cs =>
    if c = lbrace then
      match cs with
      | c2 :: rest =>
        if c2 = lbrace then
          let ds := rest.takeWhile Char.isDigit
          match rest.dropWhile Char.isDigit with
          | d1 :: d2 :: rest' =>
            if d1 = rbrace ∧ d2 = rbrace then
              if ds.isEmpty then scanVarsFuel fuel cs
              else digitsToNat ds :: scanVarsFuel fuel rest'
            else scanVarsFuel fuel cs
          | _ => scanVarsFuel fuel cs
        else scanVarsFuel fuel cs
      | [] => []
    else scanVarsFuel fuel cs

/-- All placeholder indices of a text, in match order: the matches of the
global regex that recognises a double opening brace, a nonempty digit string,
and a double closing brace (the `variableRegex` of the source), each capture
parsed as a decimal number. -/
def scanVars (l : List Char) : List Nat := scanVarsFuel l.length l

/-- Ascending numeric sort, modelling `variables.sort((a, b) => a - b)`. -/
def sortNats (l : List Nat) : List Nat := l.insertionSort (· ≤ ·)

/-- The indexed loop `for (let i ...) if (variables[i] !== i + 1) return false`
of the sequential-numbering checks, started at offset `s`. -/
def seqCheckFrom : Nat → List Nat → Bool
  | _, [] => true
  | s, v :: vs => v == s + 1 && seqCheckFrom (s + 1) vs

/-- The variable-sequencing `refine` of `createTextValidator` in
`template-schema.ts`: no placeholders is fine; otherwise the matched indices,
sorted ascending, must equal `i + 1` at every position `i`. -/
def sequentialVariablesCheck (text : String) : Bool :=
  let ms := scanVars text.data
  if ms.isEmpty then true
  else seqCheckFrom 0 (sortNats ms)

/-- Constructor used by `addError` in `template-parser.ts` (severity fixed,
`line` never passed). -/
def mkError (field message : String) (suggestion : Option String) : ValidationError :=
  ⟨field, message, suggestion, none, .error⟩

/-- Constructor used by `addWarning`. -/
def mkWarning (field message : String) (suggestion : Option String) : ValidationError :=
  ⟨field, message, suggestion, none, .warning⟩

/-- Constructor used by `addInfo`. -/
def mkInfo (field message : String) (suggestion : Option String) : ValidationError :=
  ⟨field, message, suggestion, none, .info⟩

/-- Dynamic field path of the form `buttons[i]` followed by a suffix such as
`.url`, `.text`, `.package_name` or `.zero_tap_terms_accepted`. -/
def btnField (i : Nat) (suf : String) : String :=
  "buttons[" ++ (toString i ++ ("]" ++ suf))

/-- Dynamic field path `components[i]`. -/
def compField (i : Nat) : String :=
  "components[" ++ (toString i ++ "]")

/-- Printed name of a header format, as the template literals interpolate it. -/
def HeaderFormat.str : HeaderFormat → String
  | .TEXT => "TEXT"
  | .IMAGE => "IMAGE"
  | .VIDEO => "VIDEO"
  | .DOCUMENT => "DOCUMENT"
  | .LOCATION => "LOCATION"

/-- The first BUTTONS component's button array, if any
(`template.components.find(c => c.type === "BUTTONS")?.buttons`). -/
def findButtons (cs : List Component) : Option (List Button) :=
  match cs.find? Component.isButtons with
  | some (.buttons bs) => some bs
  | _ => none

/-- The `header_url` array reached through `example?.header_url`. -/
def exampleHeaderUrl (ex : Option TemplateExample) : Option (List String) :=
  ex.bind (fun e => e.header_url)

/-- Position of a component type in the canonical order
`componentOrder.indexOf(component.type)` of `validateBasicStructure`. -/
def Component.orderIndex : Component → Int
  | .header _ _ _ => 0
  | .body _ _ _ => 1
  | .footer _ _ => 2
  | .buttons _ => 3

/-- The indexed `forEach` loop of `validateBasicStructure`: warn whenever a
component's canonical-order index is below the running maximum `lastValidIndex`
(initially `-1`). -/
def orderWarnings : Int → Nat → List Component → List ValidationError
  | _, _, [] => []
  | lastIdx, i, c :: cs =>
    (if c.orderIndex < lastIdx then
      [mkWarning (compField i)
        ("Component " ++ componentTypeName c ++ " should come before previous components")
        (some "Reorder components: HEADER → BODY → FOOTER → BUTTONS")]
     else []) ++ orderWarnings (max lastIdx c.orderIndex) (i + 1) cs
where
  componentTypeName : Component → String
  | .header _ _ _ => "HEADER"
  | .body _ _ _ => "BODY"
  | .footer _ _ => "FOOTER"
  | .buttons _ => "BUTTONS"

/-- Pass 1, `validateBasicStructure`: missing BODY is an error; out-of-order
components are warnings. -/
def validateBasicStructure (t : WhatsAppTemplate) : List ValidationError :=
  (if (t.components.find? Component.isBody).isNone then
    [mkError "components" "Template must have a BODY component"
      (some "Add a BODY component with your message text")]
   else []) ++ orderWarnings (-1) 0 t.components

/-- Test `b.type === "OTP"` combined with the `some` call of
`validateAuthenticationTemplate`. -/
def Button.isOTP : Button → Bool
  | .otp _ _ _ _ _ _ => true
  | _ => false

/-- Category rules for AUTHENTICATION (`validateAuthenticationTemplate`):
warn when a BUTTONS component lacks an OTP button; error when a truthy TTL is
outside 30..900; info-suggest `add_security_recommendation` when the BODY
lacks it. -/
def validateAuthenticationTemplate (t : WhatsAppTemplate) : List ValidationError :=
  (match findButtons t.components with
   | some bs =>
     if bs.any Button.isOTP then []
     else
       [mkWarning "buttons"
         "Authentication templates typically use OTP buttons for better user experience"
         (some "Consider adding an OTP button (COPY_CODE, ONE_TAP, or ZERO_TAP)")]
   | none => []) ++
  (match t.messageSendTtlSeconds with
   | some ttl =>
     if ttl != 0 && (ttl < 30 || ttl > 900) then
       [mkError "messageSendTtlSeconds"
         "Authentication templates TTL must be between 30 seconds and 15 minutes (900 seconds)"
         (some "Set TTL between 30 and 900 seconds")]
     else []
   | none => []) ++
  (match t.components.find? Component.isBody with
   | some (.body _ asr _) =>
     if truthyBool asr then []
     else
       [mkInfo "body.add_security_recommendation"
         "Consider adding security recommendation for authentication templates"
         (some "Set add_security_recommendation to true")]
   | _ => [])

/-- Category rules for UTILITY (`validateUtilityTemplate`): error when a
truthy TTL is outside 30..43200; warn when `subCategory` is ORDER_STATUS and a
BUTTONS component exists. -/
def validateUtilityTemplate (t : WhatsAppTemplate) : List ValidationError :=
  (match t.messageSendTtlSeconds with
   | some ttl =>
     if ttl != 0 && (ttl < 30 || ttl > 43200) then
       [mkError "messageSendTtlSeconds"
         "Utility templates TTL must be between 30 seconds and 12 hours (43200 seconds)"
         (some "Set TTL between 30 and 43200 seconds")]
     else []
   | none => []) ++
  (if t.subCategory = some .ORDER_STATUS ∧ (t.components.find? Component.isButtons).isSome then
    [mkWarning "buttons" "Order status templates typically don't need buttons"
      (some "Consider removing buttons for order status updates")]
   else [])

/-- Category rules for MARKETING (`validateMarketingTemplate`): error when a
truthy TTL is outside 43200..2592000; info when HEADER or BUTTONS is absent. -/
def validateMarketingTemplate (t : WhatsAppTemplate) : List ValidationError :=
  (match t.messageSendTtlSeconds with
   | some ttl =>
     if ttl != 0 && (ttl < 43200 || ttl > 2592000) then
       [mkError "messageSendTtlSeconds"
         "Marketing templates TTL must be between 12 hours (43200 seconds) and 30 days (2592000 seconds)"
         (some "Set TTL between 43200 and 2592000 seconds")]
     else []
   | none => []) ++
  (if (t.components.find? Component.isHeader).isNone then
    [mkInfo "header" "Marketing templates perform better with media headers"
      (some "Consider adding an IMAGE, VIDEO, or DOCUMENT header")]
   else []) ++
  (if (t.components.find? Component.isButtons).isNone then
    [mkInfo "buttons" "Marketing templates benefit from call-to-action buttons"
      (some "Consider adding URL or QUICK_REPLY buttons")]
   else [])

/-- Pass 2, `validateCategorySpecificRules`: dispatch on `category`. -/
def validateCategorySpecificRules (t : WhatsAppTemplate) : List ValidationError :=
  match t.category with
  | .AUTHENTICATION => validateAuthenticationTemplate t
  | .UTILITY => validateUtilityTemplate t
  | .MARKETING => validateMarketingTemplate t

/-- The per-button OTP conditional-field checks of
`validateComponentCombinations` (ONE_TAP needs a truthy `package_name`,
ZERO_TAP needs a truthy `zero_tap_terms_accepted`). -/
def otpButtonCheck (i : Nat) (b : Button) : List ValidationError :=
  match b with
  | .otp ot _ _ pkg _ zt =>
    (if ot = .ONE_TAP ∧ truthyStr pkg = false then
      [mkError (btnField i ".package_name") "ONE_TAP OTP buttons require package_name"
        (some "Add your Android app's package name")]
     else []) ++
    (if ot = .ZERO_TAP ∧ truthyBool zt = false then
      [mkError (btnField i ".zero_tap_terms_accepted") "ZERO_TAP OTP buttons require terms acceptance"
        (some "Set zero_tap_terms_accepted to true")]
     else [])
  | _ => []

/-- Pass 3, `validateComponentCombinations`: header format cross-checks on the
first HEADER component, then OTP button conditional requirements on the first
BUTTONS component. -/
def validateComponentCombinations (t : WhatsAppTemplate) : List ValidationError :=
  (match t.components.find? Component.isHeader with
   | some (.header format text ex) =>
     (if format = some .TEXT ∧ truthyStr text = false then
       [mkError "header.text" "TEXT header format requires text content"
         (some "Add text or change format")]
      else []) ++
     (match format with
      | some f =>
        if f ≠ .TEXT ∧ (exampleHeaderUrl ex).isNone then
          [mkError "header.example.header_url" (f.str ++ " header format requires example URL")
            (some "Add example URL for media header")]
        else []
      | none => [])
   | _ => []) ++
  (match findButtons t.components with
   | some bs => ((bs.enum.map fun p => otpButtonCheck p.1 p.2).flatten)
   | none => [])

/-- The error message of the sequential-numbering check, which enumerates the
sorted variable list:
`Variables must be sequential starting from ((1)). Found: ((a)), ((b)), ...`
with doubled braces where this comment shows doubled parentheses (the braces
are escaped in the string literals below). -/
def seqMessage (vars : List Nat) : String :=
  "Variables must be sequential starting from \x7b\x7b1\x7d\x7d. Found: \x7b\x7b" ++
    (String.intercalate "\x7d\x7d, \x7b\x7b" (vars.map toString) ++ "\x7d\x7d")

/-- The `validateVariablesInText` helper of the rule engine: scan the text for
placeholders; if any are present, sort the indices (with multiplicity) and
emit one error on the first position where the sorted list differs from
`i + 1`, then one warning when the list contains duplicates. -/
def validateVariablesInText (text field : String) : List ValidationError :=
  let ms := scanVars text.data
  if ms.isEmpty then []
  else
    let vars := sortNats ms
    (if seqCheckFrom 0 vars then []
     else
       [mkError field (seqMessage vars)
         (some "Use variables \x7b\x7b1\x7d\x7d, \x7b\x7b2\x7d\x7d, \x7b\x7b3\x7d\x7d, etc. in sequence")]) ++
    (if vars.dedup.length ≠ vars.length then
      [mkWarning field "Duplicate variables found"
        (some "Each variable should be used only once per component")]
     else [])

/-- Per-component part of pass 4 (`validateVariableUsage`): BODY text and
TEXT-format HEADER text are scanned (when truthy) under fields `body.text` and
`header.text`; URL buttons' truthy `url` strings are scanned under
`buttons[i].url`. -/
def varUsageComponent : Component → List ValidationError
  | .body text _ _ =>
    if text != "" then validateVariablesInText text "body.text" else []
  | .header format text _ =>
    if format = some .TEXT ∧ truthyStr text then
      match text with
      | some s => validateVariablesInText s "header.text"
      | none => []
    else []
  | .buttons bs =>
    (bs.enum.map fun p =>
      match p.2 with
      | .url _ u _ => if u != "" then validateVariablesInText u (btnField p.1 ".url") else []
      | _ => []).flatten
  | _ => []

/-- Pass 4, `validateVariableUsage`: apply `varUsageComponent` to every
component in order. -/
def validateVariableUsage (t : WhatsAppTemplate) : List ValidationError :=
  (t.components.map varUsageComponent).flatten

/-- The `validateTextLength` helper of pass 5: an error above `maxLength`, and
a proximity warning above ninety percent of it.  The source compares
`text.length > maxLength * 0.9` in floating point; for the limits in use
(60, 1024, 25) that threshold is crossed exactly when
`10 * length > 9 * maxLength`. -/
def validateTextLength (text : String) (maxLength : Nat) (field : String) : List ValidationError :=
  (if text.length > maxLength then
    [mkError field
      ("Text exceeds " ++ (toString maxLength ++ (" character limit (current: " ++ (toString text.length ++ ")"))))
      (some ("Reduce text by " ++ (toString (text.length - maxLength) ++ " characters")))]
   else []) ++
  (if text.length * 10 > maxLength * 9 then
    [mkWarning field
      ("Text is close to " ++ (toString maxLength ++ (" character limit (current: " ++ (toString text.length ++ ")"))))
      (some "Consider shortening the text to avoid future issues")]
   else [])

/-- Per-component part of pass 5 (`validateCharacterLimits`): HEADER TEXT text
≤ 60, BODY text ≤ 1024, FOOTER text ≤ 60, button texts ≤ 25. -/
def charLimitsComponent : Component → List ValidationError
  | .header format text _ =>
    if format = some .TEXT ∧ truthyStr text then
      match text with
      | some s => validateTextLength s 60 "header.text"
      | none => []
    else []
  | .body text _ _ => validateTextLength text 1024 "body.text"
  | .footer text _ => validateTextLength text 60 "footer.text"
  | .buttons bs =>
    (bs.enum.map fun p =>
      match p.2.textOf with
      | some s => if s != "" then validateTextLength s 25 (btnField p.1 ".text") else []
      | none => []).flatten

/-- Pass 5, `validateCharacterLimits`. -/
def validateCharacterLimits (t : WhatsAppTemplate) : List ValidationError :=
  (t.components.map charLimitsComponent).flatten

/-- Discriminator test `b.type === "PHONE_NUMBER"`. -/
def Button.isPhoneNumber : Button → Bool
  | .phone_number _ _ => true
  | _ => false

/-- Discriminator test `b.type === "URL"`. -/
def Button.isUrl : Button → Bool
  | .url _ _ _ => true
  | _ => false

/-- Discriminator test `b.type === "COPY_CODE"`. -/
def Button.isCopyCode : Button → Bool
  | .copy_code _ => true
  | _ => false

/-- Discriminator test `b.type === "QUICK_REPLY"`. -/
def Button.isQuickReply : Button → Bool
  | .quick_reply _ => true
  | _ => false

/-- The `every((index, i) => i === 0 || index === arr[i-1] + 1)` grouping test
on the quick-reply index list: adjacent indices must be consecutive. -/
def isConsecutive : List Nat → Bool
  | [] => true
  | [_] => true
  | a :: b :: rest => b == a + 1 && isConsecutive (b :: rest)

/-- Pass 6, `validateButtonCombinations`: per-type caps (≤ 1 PHONE_NUMBER,
≤ 2 URL, ≤ 1 COPY_CODE) and quick-reply contiguity over the first BUTTONS
component, every violation an error with field `buttons`. -/
def validateButtonCombinations (t : WhatsAppTemplate) : List ValidationError :=
  match findButtons t.components with
  | none => []
  | some bs =>
    (if bs.countP Button.isPhoneNumber > 1 then
      [mkError "buttons" "Maximum 1 phone number button allowed"
        (some "Remove extra phone number buttons")]
     else []) ++
    (if bs.countP Button.isUrl > 2 then
      [mkError "buttons" "Maximum 2 URL buttons allowed" (some "Remove extra URL buttons")]
     else []) ++
    (if bs.countP Button.isCopyCode > 1 then
      [mkError "buttons" "Maximum 1 copy code button allowed"
        (some "Remove extra copy code buttons")]
     else []) ++
    (let qr := bs.enum.filterMap fun p => if p.2.isQuickReply then some p.1 else none
     if qr ≠ [] ∧ isConsecutive qr = false then
       [mkError "buttons" "Quick reply buttons must be grouped together"
         (some "Move all quick reply buttons to the beginning or end of the button list")]
     else [])

/-- Case-insensitive suffix test, modelling the anchored case-insensitive
regexes of `validateMediaRequirements` (the suffix argument is given in lower
case). -/
def endsWithCI (url suf : String) : Bool :=
  List.isSuffixOf suf.data (url.data.map Char.toLower)

/-- The per-format extension checks of `validateMediaRequirements`; LOCATION
has no case in the switch. -/
def extensionCheck (f : HeaderFormat) (url : String) : List ValidationError :=
  match f with
  | .IMAGE =>
    if endsWithCI url ".jpg" || endsWithCI url ".jpeg" || endsWithCI url ".png" then []
    else
      [mkError "header.example.header_url" "Image header URL must end with .jpg, .jpeg, or .png"
        (some "Use a valid image file extension")]
  | .VIDEO =>
    if endsWithCI url ".mp4" then []
    else
      [mkError "header.example.header_url" "Video header URL must end with .mp4"
        (some "Use a valid MP4 video file")]
  | .DOCUMENT =>
    if endsWithCI url ".pdf" then []
    else
      [mkError "header.example.header_url" "Document header URL must end with .pdf"
        (some "Use a valid PDF document file")]
  | _ => []

/-- Pass 7, `validateMediaRequirements`: skip when there is no header, no
format, or TEXT format; otherwise require a truthy `example.header_url[0]`
(error and stop when absent or empty), then run the extension checks on it. -/
def validateMediaRequirements (t : WhatsAppTemplate) : List ValidationError :=
  match t.components.find? Component.isHeader with
  | some (.header (some f) _ ex) =>
    if f = .TEXT then []
    else
      match exampleHeaderUrl ex with
      | some (u :: _) =>
        if u = "" then
          [mkError "header.example.header_url" (f.str ++ " header requires example URL")
            (some "Add a valid example URL for the media")]
        else extensionCheck f u
      | _ =>
        [mkError "header.example.header_url" (f.str ++ " header requires example URL")
          (some "Add a valid example URL for the media")]
  | _ => []

/-- Pass 8, `validateTTLSettings`: a falsy TTL (absent or zero) yields only
the info suggestion; otherwise the absolute bounds 30 and 2592000 are enforced
as errors. -/
def validateTTLSettings (t : WhatsAppTemplate) : List ValidationError :=
  match t.messageSendTtlSeconds with
  | none =>
    [mkInfo "messageSendTtlSeconds" "Consider setting a TTL (time-to-live) for your template"
      (some "Add messageSendTtlSeconds based on your template category")]
  | some ttl =>
    if ttl = 0 then
      [mkInfo "messageSendTtlSeconds" "Consider setting a TTL (time-to-live) for your template"
        (some "Add messageSendTtlSeconds based on your template category")]
    else
      (if ttl < 30 then
        [mkError "messageSendTtlSeconds" "TTL cannot be less than 30 seconds"
          (some "Set TTL to at least 30 seconds")]
       else []) ++
      (if ttl > 2592000 then
        [mkError "messageSendTtlSeconds" "TTL cannot exceed 30 days (2592000 seconds)"
          (some "Set TTL to maximum 2592000 seconds")]
       else [])

/-- The full ordered emission stream of `TemplateValidator.validate`: the
eight passes run in source order, never aborting each other. -/
def runPasses (t : WhatsAppTemplate) : List ValidationError :=
  validateBasicStructure t ++ validateCategorySpecificRules t ++
    validateComponentCombinations t ++ validateVariableUsage t ++
    validateCharacterLimits t ++ validateButtonCombinations t ++
    validateMediaRequirements t ++ validateTTLSettings t

/-- The `validate` method: partition the emission stream by severity;
`isValid` holds exactly when the error list is empty. -/
def validate (t : WhatsAppTemplate) : ValidationResult :=
  let ds := runPasses t
  let errors := ds.filter fun d => d.severity == .error
  { isValid := errors.isEmpty
    errors := errors
    warnings := ds.filter fun d => d.severity == .warning
    info := ds.filter fun d => d.severity == .info }

/-- JavaScript `String.prototype.split` with separator newline, over the char
list: splitting the empty string yields one empty segment, every newline
starts a new segment. -/
def splitNl : List Char → List (List Char)
  | [] => [[]]
  | c :: cs =>
    match splitNl cs with
    | [] => [[c]]
    | seg :: rest => if c = '\n' then [] :: seg :: rest else (c :: seg) :: rest

/-- The `getLineAndColumn` helper of `TemplateParser`: split the first
`position` characters on newlines; the line is the number of segments and the
column is the length of the last segment plus one.  `List.take` clamps at the
end of the text just as `substring` does. -/
def getLineAndColumn (text : String) (position : Nat) : Nat × Nat :=
  let lines := splitNl (text.data.take position)
  (lines.length, (lines.getLastD []).length + 1)

/-- Modelled from the claim's wording for C8: the characters of `l` strictly
after the last newline character, or all of `l` when it has no newline. -/
def charsAfterLastNewline : List Char → List Char
  | [] => []
  | c :: cs =>
    if c = '\n' then charsAfterLastNewline cs
    else if '\n' ∈ cs then charsAfterLastNewline cs
    else c :: cs

/-- The built-in example templates of `TemplateParser.generateExampleTemplate`
(the `name` literals spell out `example_<category>_template`). -/
def generateExampleTemplate : TemplateCategory → WhatsAppTemplate
  | .AUTHENTICATION =>
    { wabaId := none
      name := "example_authentication_template"
      language := "en_US"
      category := .AUTHENTICATION
      subCategory := none
      messageSendTtlSeconds := some 600
      components :=
        [ .body "\x7b\x7b1\x7d\x7d is your verification code. For your security, do not share this code."
            (some true)
            (some { header_text := none, header_url := none, body_text := some [["123456"]] })
        , .footer "This code expires in 5 minutes." (some 5)
        , .buttons [.otp .COPY_CODE (some "Copy Code") none none none none] ] }
  | .UTILITY =>
    { wabaId := none
      name := "example_utility_template"
      language := "en_US"
      category := .UTILITY
      subCategory := none
      messageSendTtlSeconds := none
      components :=
        [ .body "Your order \x7b\x7b1\x7d\x7d for a total of \x7b\x7b2\x7d\x7d is confirmed. The expected delivery is \x7b\x7b3\x7d\x7d."
            none
            (some { header_text := none, header_url := none
                    body_text := some [["ORDER-5555", "99 USD", "February 25, 2023"]] }) ] }
  | .MARKETING =>
    { wabaId := none
      name := "example_marketing_template"
      language := "en_US"
      category := .MARKETING
      subCategory := none
      messageSendTtlSeconds := none
      components :=
        [ .header (some .IMAGE) none
            (some { header_text := none, header_url := some ["https://example.com/image.jpg"]
                    body_text := none })
        , .body "Hi \x7b\x7b1\x7d\x7d, check out our amazing deals! Get \x7b\x7b2\x7d\x7d off your next purchase."
            none
            (some { header_text := none, header_url := none
                    body_text := some [["John", "20%"]] })
        , .footer "Limited time offer" none
        , .buttons [.url "Shop Now" "https://example.com/shop" none, .quick_reply "Learn More"] ] }


/-! ## Supporting lemmas -/

/-- Every diagnostic produced by `validateVariablesInText` carries the field
path it was called with. -/
theorem mem_validateVariablesInText_field {text f : String} {d : ValidationError}
    (hd : d ∈ validateVariablesInText text f) : d.field = f := by
  simp only [validateVariablesInText] at hd
  split at hd
  · simp at hd
  · rw [List.mem_append] at hd
    rcases hd with hd | hd <;> split at hd <;>
      simp_all [mkError, mkWarning]

/-- Every diagnostic produced by `validateTextLength` carries the field path
it was called with. -/
theorem mem_validateTextLength_field {s : String} {n : Nat} {f : String} {d : ValidationError}
    (hd : d ∈ validateTextLength s n f) : d.field = f := by
  simp only [validateTextLength] at hd
  rw [List.mem_append] at hd
  rcases hd with hd | hd <;> split at hd <;>
    simp_all [mkError, mkWarning]

/-- Two strings whose first characters differ are different strings. -/
theorem string_ne_of_head {a b : String} (h : a.data.head? ≠ b.data.head?) : a ≠ b :=
  fun hab => h (by rw [hab])

/-- A `buttons[i]...` field path begins with the letter b. -/
theorem btnField_head (i : Nat) (suf : String) : (btnField i suf).data.head? = some 'b' := by
  rw [btnField, String.data_append]
  rfl

/-- A `components[i]` field path begins with the letter c. -/
theorem compField_head (i : Nat) : (compField i).data.head? = some 'c' := by
  rw [compField, String.data_append]
  rfl

/-- The sequential loop accepts exactly the run `s+1, s+2, ...` of the list's
length. -/
theorem seqCheckFrom_eq_true_iff (l : List Nat) :
    ∀ s, seqCheckFrom s l = true ↔ l = List.range' (s + 1) l.length := by
  induction l with
  | nil => intro s; simp [seqCheckFrom]
  | cons v vs ih =>
    intro s
    simp [seqCheckFrom, List.range'_succ, ih (s + 1), Nat.add_right_comm s 1 1]

/-! ## Claim C1 -/

/-- C1: the verdict of `validate` is `true` exactly when the error list is
empty, and everything in the error list has error severity (so warnings and
info never affect the verdict). -/
theorem c1_verdict_iff_no_errors (t : WhatsAppTemplate) :
    (validate t).isValid = (validate t).errors.isEmpty ∧
      (validate t).errors.all (fun d => d.severity == .error) = true := by
  refine ⟨rfl, ?_⟩
  rw [List.all_eq_true]
  intro d hd
  simp only [validate, List.mem_filter] at hd
  exact hd.2

/-- C1 witness: the verdict equation evaluated on the built-in MARKETING
example template. -/
theorem c1_verdict_iff_no_errors_witness :
    (validate (generateExampleTemplate .MARKETING)).isValid =
        (validate (generateExampleTemplate .MARKETING)).errors.isEmpty ∧
      (validate (generateExampleTemplate .MARKETING)).errors.all
        (fun d => d.severity == .error) = true :=
  c1_verdict_iff_no_errors (generateExampleTemplate .MARKETING)

/-! ## Claim C3 -/

/-- C3 counterexample: the text consisting of the placeholder 1 twice has
distinct-index set exactly `1..1`, yet the structural variable-sequencing
check rejects it — the check compares the sorted index list with
multiplicity, so a repeated index always fails it. -/
theorem c3_counterexample :
    (sortNats (scanVars "\x7b\x7b1\x7d\x7d\x7b\x7b1\x7d\x7d".data)).dedup = [1] ∧
      sequentialVariablesCheck "\x7b\x7b1\x7d\x7d\x7b\x7b1\x7d\x7d" = false := by
  decide

/-- C3 amended: the structural variable-sequencing check accepts a text iff
the full list of placeholder indices (with multiplicity), sorted ascending,
equals the contiguous run `1..m` — equivalently, the distinct indices form
`1..k` with no gaps AND no index repeats. -/
theorem c3_sequential_check_iff (text : String) :
    sequentialVariablesCheck text = true ↔
      sortNats (scanVars text.data) =
        List.range' 1 (sortNats (scanVars text.data)).length := by
  simp only [sequentialVariablesCheck]
  split
  · rename_i h
    rw [List.isEmpty_iff] at h
    simp [h, sortNats, List.insertionSort]
  · simpa using seqCheckFrom_eq_true_iff (sortNats (scanVars text.data)) 0

/-- C3 amended witness: the amended equivalence evaluated at a two-variable
text. -/
theorem c3_sequential_check_iff_witness :
    sequentialVariablesCheck "a \x7b\x7b1\x7d\x7d b \x7b\x7b2\x7d\x7d" = true ↔
      sortNats (scanVars "a \x7b\x7b1\x7d\x7d b \x7b\x7b2\x7d\x7d".data) =
        List.range' 1 (sortNats (scanVars "a \x7b\x7b1\x7d\x7d b \x7b\x7b2\x7d\x7d".data)).length :=
  c3_sequential_check_iff "a \x7b\x7b1\x7d\x7d b \x7b\x7b2\x7d\x7d"

/-! ## Claim C4 -/

/-- C4 counterexample: for body-style text consisting of placeholder 1 twice,
the rule engine's `validateVariablesInText` emits an error-severity diagnostic
for the field (besides the duplicate warning), refuting the claim that
duplicates produce a warning only. -/
theorem c4_counterexample :
    (sortNats (scanVars "\x7b\x7b1\x7d\x7d\x7b\x7b1\x7d\x7d".data)).dedup = [1] ∧
      ((validateVariablesInText "\x7b\x7b1\x7d\x7d\x7b\x7b1\x7d\x7d" "body.text").any
        (fun d => d.severity == .error && d.field == "body.text")) = true := by
  decide

/-- C4 amended: when the distinct placeholder indices of a text equal `1..k`
but some index occurs more than once, `validateVariablesInText` emits the
duplicate-variables warning for the field AND an error-severity sequential
diagnostic for the field (the sequencing loop walks the sorted list with
multiplicity, which cannot match `i + 1` at every position once a duplicate is
present). -/
theorem c4_duplicates_warn_and_error (text f : String) (k : Nat)
    (h1 : (sortNats (scanVars text.data)).dedup = List.range' 1 k)
    (h2 : (sortNats (scanVars text.data)).dedup.length ≠
      (sortNats (scanVars text.data)).length) :
    ((validateVariablesInText text f).any
        (fun d => d.severity == .warning && d.message == "Duplicate variables found")) = true ∧
      ((validateVariablesInText text f).any (fun d => d.severity == .error)) = true := by
  have hms : scanVars text.data ≠ [] := by
    intro h
    rw [h] at h2
    simp [sortNats, List.insertionSort] at h2
  have hseq : seqCheckFrom 0 (sortNats (scanVars text.data)) = false := by
    cases hsc : seqCheckFrom 0 (sortNats (scanVars text.data)) with
    | false => rfl
    | true =>
      exfalso
      have := (seqCheckFrom_eq_true_iff (sortNats (scanVars text.data)) 0).mp hsc
      have hnd : (sortNats (scanVars text.data)).Nodup := by
        rw [this]
        simpa using List.nodup_range' (s := 1) (n := (sortNats (scanVars text.data)).length)
      rw [List.dedup_eq_self.mpr hnd] at h2
      exact h2 rfl
  simp only [validateVariablesInText]
  rw [if_neg (by simpa [List.isEmpty_iff] using hms)]
  rw [hseq]
  simp only [if_neg (Bool.false_ne_true), if_pos h2]
  constructor
  · rw [List.any_eq_true]
    exact ⟨mkWarning f "Duplicate variables found"
      (some "Each variable should be used only once per component"),
      by simp, by simp [mkWarning]⟩
  · rw [List.any_eq_true]
    refine ⟨mkError f (seqMessage (sortNats (scanVars text.data)))
      (some "Use variables \x7b\x7b1\x7d\x7d, \x7b\x7b2\x7d\x7d, \x7b\x7b3\x7d\x7d, etc. in sequence"),
      by simp, by simp [mkError]⟩

/-- C4 amended witness: the amended statement discharged at the concrete
duplicate text of the counterexample. -/
theorem c4_duplicates_warn_and_error_witness :
    ((validateVariablesInText "\x7b\x7b1\x7d\x7d\x7b\x7b1\x7d\x7d" "body.text").any
        (fun d => d.severity == .warning && d.message == "Duplicate variables found")) = true ∧
      ((validateVariablesInText "\x7b\x7b1\x7d\x7d\x7b\x7b1\x7d\x7d" "body.text").any
        (fun d => d.severity == .error)) = true :=
  c4_duplicates_warn_and_error "\x7b\x7b1\x7d\x7d\x7b\x7b1\x7d\x7d" "body.text" 1
    (by decide) (by decide)

/-! ## Claim C9 -/

/-- C9: the built-in AUTHENTICATION example template (TTL 600, OTP COPY_CODE
button) validates with a true verdict and an empty error list; since the
error list is the severity-filtered concatenation of all eight passes, every
pass contributed zero error-severity diagnostics. -/
theorem c9_auth_example_is_valid :
    (validate (generateExampleTemplate .AUTHENTICATION)).isValid = true ∧
      (validate (generateExampleTemplate .AUTHENTICATION)).errors = [] := by
  decide

/-! ## Claim C10 -/

/-- Every diagnostic of the category pass has non-error severity when the TTL
field holds the falsy number zero (each category TTL guard tests numeric
truthiness, and all other category diagnostics are warnings or info). -/
theorem catRules_ttl_zero_no_errors {t : WhatsAppTemplate}
    (ht : t.messageSendTtlSeconds = some 0) :
    ∀ d ∈ validateCategorySpecificRules t, d.severity ≠ .error := by
  intro d hd
  simp only [validateCategorySpecificRules] at hd
  split at hd <;>
    [skip;
     simp only [validateUtilityTemplate, ht, List.mem_append] at hd;
     simp only [validateMarketingTemplate, ht, List.mem_append] at hd]
  · simp only [validateAuthenticationTemplate, ht, List.mem_append] at hd
    rcases hd with (hd | hd) | hd
    · rcases hfb : findButtons t.components with _ | bs <;> rw [hfb] at hd <;>
        split at hd <;> simp_all [mkWarning]
    · split at hd <;> simp_all [mkWarning, mkError, mkInfo]
    · rcases hbc : t.components.find? Component.isBody with _ | c <;> rw [hbc] at hd
      · simp at hd
      · cases c <;> simp_all [mkInfo]
  · rcases hd with hd | hd
    · split at hd <;> simp_all [mkError]
    · split at hd <;> simp_all [mkWarning]
  · rcases hd with (hd | hd) | hd
    · split at hd <;> simp_all [mkError]
    · split at hd <;> simp_all [mkInfo]
    · split at hd <;> simp_all [mkInfo]

/-- C10: a TTL value of zero is treated as absent because every TTL guard
tests JavaScript truthiness: the TTL pass emits exactly the consider-setting-
a-TTL info diagnostic, and neither it nor the category pass emits any
error-severity diagnostic with field `messageSendTtlSeconds`. -/
theorem c10_ttl_zero_treated_as_absent (t : WhatsAppTemplate)
    (ht : t.messageSendTtlSeconds = some 0) :
    validateTTLSettings t =
      [mkInfo "messageSendTtlSeconds" "Consider setting a TTL (time-to-live) for your template"
        (some "Add messageSendTtlSeconds based on your template category")] ∧
      (∀ d ∈ validateTTLSettings t ++ validateCategorySpecificRules t,
        ¬(d.severity = .error ∧ d.field = "messageSendTtlSeconds")) := by
  have h8 : validateTTLSettings t =
      [mkInfo "messageSendTtlSeconds" "Consider setting a TTL (time-to-live) for your template"
        (some "Add messageSendTtlSeconds based on your template category")] := by
    simp [validateTTLSettings, ht]
  refine ⟨h8, ?_⟩
  intro d hd hcon
  rw [List.mem_append] at hd
  rcases hd with hd | hd
  · rw [h8] at hd
    simp only [List.mem_singleton] at hd
    subst hd
    exact absurd hcon.1 (by simp [mkInfo])
  · exact catRules_ttl_zero_no_errors ht d hd hcon.1

/-- C10 witness: the statement discharged on a concrete UTILITY template with
TTL zero. -/
theorem c10_ttl_zero_treated_as_absent_witness :
    validateTTLSettings
        { wabaId := none, name := "t", language := "en", category := .UTILITY,
          subCategory := none, messageSendTtlSeconds := some 0,
          components := [.body "hi" none none] } =
      [mkInfo "messageSendTtlSeconds" "Consider setting a TTL (time-to-live) for your template"
        (some "Add messageSendTtlSeconds based on your template category")] ∧
      (∀ d ∈ validateTTLSettings
          { wabaId := none, name := "t", language := "en", category := .UTILITY,
            subCategory := none, messageSendTtlSeconds := some 0,
            components := [.body "hi" none none] } ++
          validateCategorySpecificRules
          { wabaId := none, name := "t", language := "en", category := .UTILITY,
            subCategory := none, messageSendTtlSeconds := some 0,
            components := [.body "hi" none none] },
        ¬(d.severity = .error ∧ d.field = "messageSendTtlSeconds")) :=
  c10_ttl_zero_treated_as_absent _ rfl

/-! ## Claim C8 -/

/-- Splitting never yields an empty segment list. -/
theorem splitNl_ne_nil (l : List Char) : splitNl l ≠ [] := by
  cases l with
  | nil => simp [splitNl]
  | cons c cs =>
    rcases h : splitNl cs with _ | ⟨seg, rest⟩
    · simp [splitNl, h]
    · simp only [splitNl, h]
      split <;> simp

/-- The number of newline-split segments is the newline count plus one. -/
theorem splitNl_length (l : List Char) : (splitNl l).length = l.count '\n' + 1 := by
  induction l with
  | nil => simp [splitNl]
  | cons c cs ih =>
    rcases h : splitNl cs with _ | ⟨seg, rest⟩
    · exact absurd h (splitNl_ne_nil cs)
    · rw [h] at ih
      simp only [List.length_cons] at ih
      by_cases hc : c = '\n'
      · subst hc
        simp [splitNl, h, List.count_cons]
        omega
      · simp [splitNl, h, hc, List.count_cons]
        omega

/-- A newline-free list splits into the single segment that is the list
itself. -/
theorem splitNl_of_no_newline (l : List Char) (h : '\n' ∉ l) : splitNl l = [l] := by
  induction l with
  | nil => simp [splitNl]
  | cons c cs ih =>
    have hc : c ≠ '\n' := fun e => h (e ▸ List.mem_cons_self c cs)
    have hcs : '\n' ∉ cs := fun e => h (List.mem_cons_of_mem _ e)
    simp [splitNl, ih hcs, hc]

/-- The last newline-split segment consists of the characters after the last
newline. -/
theorem splitNl_getLast? (l : List Char) :
    (splitNl l).getLast? = some (charsAfterLastNewline l) := by
  induction l with
  | nil => simp [splitNl, charsAfterLastNewline]
  | cons c cs ih =>
    rcases h : splitNl cs with _ | ⟨seg, rest⟩
    · exact absurd h (splitNl_ne_nil cs)
    · by_cases hc : c = '\n'
      · subst hc
        have hs : splitNl ('\n' :: cs) = [] :: seg :: rest := by simp [splitNl, h]
        rw [hs, List.getLast?_cons_cons, ← h, ih, charsAfterLastNewline]
        simp
      · rcases rest with _ | ⟨r2, rest'⟩
        · have hcount : cs.count '\n' = 0 := by
            have h2 := splitNl_length cs
            rw [h] at h2
            simp at h2
            omega
          have hnn : '\n' ∉ cs := List.count_eq_zero.mp hcount
          have hseg : seg = cs := by
            have h4 := splitNl_of_no_newline cs hnn
            rw [h4] at h
            simpa using h.symm
          have hs : splitNl (c :: cs) = [c :: seg] := by simp [splitNl, h, hc]
          rw [hs]
          rw [charsAfterLastNewline]
          simp [hc, hnn, hseg]
        · have hmem : '\n' ∈ cs := by
            by_contra hnn
            have h4 := splitNl_of_no_newline cs hnn
            rw [h4] at h
            simp at h
          have hs : splitNl (c :: cs) = (c :: seg) :: r2 :: rest' := by
            simp [splitNl, h, hc]
          rw [hs, List.getLast?_cons_cons, charsAfterLastNewline]
          rw [h, List.getLast?_cons_cons] at ih
          rw [ih]
          simp [hc, hmem]

/-- C8: `getLineAndColumn` returns the one-based line number (one plus the
newlines among the first `position` characters) and the one-based column (one
plus the number of characters strictly between the last such newline — or the
start of the text — and the offset). -/
theorem c8_get_line_and_column (text : String) (position : Nat)
    (hpos : position ≤ text.data.length) :
    getLineAndColumn text position =
      (1 + (text.data.take position).count '\n',
        1 + (charsAfterLastNewline (text.data.take position)).length) := by
  simp only [getLineAndColumn]
  rw [splitNl_length, List.getLastD_eq_getLast?, splitNl_getLast?]
  simp [Nat.add_comm]

/-- C8 witness: the mapper evaluated at offset 4 of a two-line text. -/
theorem c8_get_line_and_column_witness :
    4 ≤ ("ab\ncd" : String).data.length ∧
      getLineAndColumn "ab\ncd" 4 =
        (1 + (("ab\ncd" : String).data.take 4).count '\n',
          1 + (charsAfterLastNewline (("ab\ncd" : String).data.take 4)).length) :=
  ⟨by decide, c8_get_line_and_column "ab\ncd" 4 (by decide)⟩

/-! ## Field-count infrastructure for C2 and C5 -/

/-- Number of error-severity diagnostics with a given field path. -/
def errFieldCount (l : List ValidationError) (f : String) : Nat :=
  l.countP fun d => d.field == f && d.severity == .error

/-- Counting field-matching diagnostics in the error list of a report equals
counting error-severity, field-matching diagnostics in the emission stream. -/
theorem validate_errors_countP (t : WhatsAppTemplate) (f : String) :
    ((validate t).errors.countP fun d => d.field == f) = errFieldCount (runPasses t) f := by
  simp only [validate, errFieldCount]
  rw [List.countP_filter]

/-- The count distributes over concatenation. -/
theorem errFieldCount_append (a b : List ValidationError) (f : String) :
    errFieldCount (a ++ b) f = errFieldCount a f + errFieldCount b f :=
  List.countP_append ..

/-- The count vanishes when every member misses the severity or the field. -/
theorem errFieldCount_eq_zero {l : List ValidationError} {f : String}
    (h : ∀ d ∈ l, d.severity ≠ .error ∨ d.field ≠ f) : errFieldCount l f = 0 := by
  rw [errFieldCount, List.countP_eq_zero]
  intro d hd
  rcases h d hd with h' | h' <;> simp [h']

/-- The count vanishes on diagnostic lists without error severity. -/
theorem errFieldCount_of_no_errors {l : List ValidationError} {f : String}
    (h : ∀ d ∈ l, d.severity ≠ .error) : errFieldCount l f = 0 :=
  errFieldCount_eq_zero fun d hd => Or.inl (h d hd)

/-- A `buttons[i]...` field never coincides with a string that does not begin
with the letter b. -/
theorem btnField_ne (i : Nat) (suf : String) {b : String}
    (hb : b.data.head? ≠ some 'b') : btnField i suf ≠ b :=
  string_ne_of_head (by rw [btnField_head]; exact fun h => hb h.symm)

/-- Order deviations are reported as warnings only. -/
theorem mem_orderWarnings_severity {d : ValidationError} :
    ∀ (a : Int) (i : Nat) (cs : List Component), d ∈ orderWarnings a i cs →
      d.severity = .warning := by
  intro a i cs
  induction cs generalizing a i with
  | nil => simp [orderWarnings]
  | cons c cs ih =>
    intro hd
    simp only [orderWarnings, List.mem_append] at hd
    rcases hd with hd | hd
    · split at hd <;> simp_all [mkWarning]
    · exact ih _ _ hd

/-- Pass 1 contributes no error on any field other than `components`. -/
theorem errFieldCount_basicStructure (t : WhatsAppTemplate) {f : String}
    (hf : f ≠ "components") : errFieldCount (validateBasicStructure t) f = 0 := by
  apply errFieldCount_eq_zero
  intro d hd
  simp only [validateBasicStructure, List.mem_append] at hd
  rcases hd with hd | hd
  · split at hd
    · simp only [List.mem_singleton] at hd
      subst hd
      exact Or.inr (by simpa [mkError] using Ne.symm hf)
    · simp at hd
  · exact Or.inl (by simp [mem_orderWarnings_severity _ _ _ hd])

/-- Every error-severity diagnostic of the category pass concerns the TTL
field. -/
theorem catRules_error_field {t : WhatsAppTemplate} {d : ValidationError}
    (hd : d ∈ validateCategorySpecificRules t) (he : d.severity = .error) :
    d.field = "messageSendTtlSeconds" := by
  simp only [validateCategorySpecificRules] at hd
  split at hd
  · simp only [validateAuthenticationTemplate, List.mem_append] at hd
    rcases hd with (hd | hd) | hd
    · rcases hfb : findButtons t.components with _ | bs <;> rw [hfb] at hd
      · simp at hd
      · split at hd <;> simp_all [mkWarning]
    · split at hd <;> simp_all [mkError]
    · rcases hbc : t.components.find? Component.isBody with _ | c <;> rw [hbc] at hd
      · simp at hd
      · cases c <;> simp_all [mkInfo]
  · simp only [validateUtilityTemplate, List.mem_append] at hd
    rcases hd with hd | hd
    · split at hd <;> simp_all [mkError]
    · split at hd <;> simp_all [mkWarning]
  · simp only [validateMarketingTemplate, List.mem_append] at hd
    rcases hd with (hd | hd) | hd
    · split at hd <;> simp_all [mkError]
    · split at hd <;> simp_all [mkInfo]
    · split at hd <;> simp_all [mkInfo]

/-- Pass 2 contributes no error on fields other than the TTL field. -/
theorem errFieldCount_catRules_ne (t : WhatsAppTemplate) {f : String}
    (hf : f ≠ "messageSendTtlSeconds") :
    errFieldCount (validateCategorySpecificRules t) f = 0 := by
  apply errFieldCount_eq_zero
  intro d hd
  by_cases he : d.severity = .error
  · exact Or.inr (by rw [catRules_error_field hd he]; exact Ne.symm hf)
  · exact Or.inl he

/-- For an AUTHENTICATION template with TTL 1000, the category pass emits
exactly one error-severity diagnostic on the TTL field. -/
theorem errFieldCount_auth_ttl1000 {t : WhatsAppTemplate}
    (hc : t.category = .AUTHENTICATION) (ht : t.messageSendTtlSeconds = some 1000) :
    errFieldCount (validateCategorySpecificRules t) "messageSendTtlSeconds" = 1 := by
  simp only [validateCategorySpecificRules, hc, validateAuthenticationTemplate, ht]
  rw [errFieldCount_append, errFieldCount_append]
  have h1 : errFieldCount
      (match findButtons t.components with
       | some bs =>
         if bs.any Button.isOTP then []
         else
           [mkWarning "buttons"
             "Authentication templates typically use OTP buttons for better user experience"
             (some "Consider adding an OTP button (COPY_CODE, ONE_TAP, or ZERO_TAP)")]
       | none => []) "messageSendTtlSeconds" = 0 := by
    apply errFieldCount_of_no_errors
    intro d hd
    rcases hfb : findButtons t.components with _ | bs <;> rw [hfb] at hd
    · simp at hd
    · split at hd <;> simp_all [mkWarning]
  have h3 : errFieldCount
      (match t.components.find? Component.isBody with
       | some (.body _ asr _) =>
         if truthyBool asr then []
         else
           [mkInfo "body.add_security_recommendation"
             "Consider adding security recommendation for authentication templates"
             (some "Set add_security_recommendation to true")]
       | _ => []) "messageSendTtlSeconds" = 0 := by
    apply errFieldCount_of_no_errors
    intro d hd
    rcases hbc : t.components.find? Component.isBody with _ | c <;> rw [hbc] at hd
    · simp at hd
    · cases c <;> simp_all [mkInfo]
  rw [h1, h3]
  norm_num
  simp [errFieldCount, mkError]

/-- Every error of pass 3 concerns `header.text`, `header.example.header_url`
or an OTP conditional field `buttons[i].package_name` /
`buttons[i].zero_tap_terms_accepted`. -/
theorem comb_error_fields {t : WhatsAppTemplate} {d : ValidationError}
    (hd : d ∈ validateComponentCombinations t) :
    d.field = "header.text" ∨ d.field = "header.example.header_url" ∨
      ∃ i, d.field = btnField i ".package_name" ∨
        d.field = btnField i ".zero_tap_terms_accepted" := by
  simp only [validateComponentCombinations, List.mem_append] at hd
  rcases hd with hd | hd
  · rcases hh : t.components.find? Component.isHeader with _ | c <;> rw [hh] at hd
    · simp at hd
    · cases c with
      | header fmt txt ex =>
        simp only [List.mem_append] at hd
        rcases hd with hd | hd
        · split at hd <;> simp_all [mkError]
        · rcases fmt with _ | f
          · simp at hd
          · split at hd <;> simp_all [mkError]
      | body _ _ _ => simp at hd
      | footer _ _ => simp at hd
      | buttons _ => simp at hd
  · rcases hfb : findButtons t.components with _ | bs <;> rw [hfb] at hd
    · simp at hd
    · simp only [List.mem_flatten, List.mem_map] at hd
      obtain ⟨l, ⟨p, hp, rfl⟩, hdl⟩ := hd
      right; right
      refine ⟨p.1, ?_⟩
      rcases p with ⟨i, b⟩
      cases b with
      | otp ot bt at' pkg sig zt =>
        simp only [otpButtonCheck, List.mem_append] at hdl
        rcases hdl with hdl | hdl <;> split at hdl <;> simp_all [mkError]
      | quick_reply _ => simp [otpButtonCheck] at hdl
      | url _ _ _ => simp [otpButtonCheck] at hdl
      | phone_number _ _ => simp [otpButtonCheck] at hdl
      | copy_code _ => simp [otpButtonCheck] at hdl
      | catalog => simp [otpButtonCheck] at hdl
      | mpm => simp [otpButtonCheck] at hdl
      | flow _ _ _ _ => simp [otpButtonCheck] at hdl
      | order_details => simp [otpButtonCheck] at hdl
      | voice_call _ => simp [otpButtonCheck] at hdl

/-- Every diagnostic of pass 4 concerns `body.text`, `header.text` or a
`buttons[i].url` field. -/
theorem varUsage_fields {t : WhatsAppTemplate} {d : ValidationError}
    (hd : d ∈ validateVariableUsage t) :
    d.field = "body.text" ∨ d.field = "header.text" ∨ ∃ i, d.field = btnField i ".url" := by
  simp only [validateVariableUsage, List.mem_flatten, List.mem_map] at hd
  obtain ⟨l, ⟨c, hc, rfl⟩, hdl⟩ := hd
  cases c with
  | body text asr ex =>
    simp only [varUsageComponent] at hdl
    split at hdl
    · exact Or.inl (mem_validateVariablesInText_field hdl)
    · simp at hdl
  | header fmt txt ex =>
    simp only [varUsageComponent] at hdl
    split at hdl
    · cases txt with
      | none => simp at hdl
      | some s => exact Or.inr (Or.inl (mem_validateVariablesInText_field hdl))
    · simp at hdl
  | footer _ _ => simp [varUsageComponent] at hdl
  | buttons bs =>
    simp only [varUsageComponent, List.mem_flatten, List.mem_map] at hdl
    obtain ⟨l2, ⟨p, hp, rfl⟩, hdl2⟩ := hdl
    right; right
    rcases p with ⟨i, b⟩
    cases b with
    | url _ u _ =>
      simp only at hdl2
      split at hdl2
      · exact ⟨i, mem_validateVariablesInText_field hdl2⟩
      · simp at hdl2
    | quick_reply _ => simp at hdl2
    | phone_number _ _ => simp at hdl2
    | copy_code _ => simp at hdl2
    | otp _ _ _ _ _ _ => simp at hdl2
    | catalog => simp at hdl2
    | mpm => simp at hdl2
    | flow _ _ _ _ => simp at hdl2
    | order_details => simp at hdl2
    | voice_call _ => simp at hdl2

/-- Every diagnostic of pass 5 concerns `header.text`, `body.text`,
`footer.text` or a `buttons[i].text` field. -/
theorem charLimits_fields {t : WhatsAppTemplate} {d : ValidationError}
    (hd : d ∈ validateCharacterLimits t) :
    d.field = "header.text" ∨ d.field = "body.text" ∨ d.field = "footer.text" ∨
      ∃ i, d.field = btnField i ".text" := by
  simp only [validateCharacterLimits, List.mem_flatten, List.mem_map] at hd
  obtain ⟨l, ⟨c, hc, rfl⟩, hdl⟩ := hd
  cases c with
  | header fmt txt ex =>
    simp only [charLimitsComponent] at hdl
    split at hdl
    · cases txt with
      | none => simp at hdl
      | some s => exact Or.inl (mem_validateTextLength_field hdl)
    · simp at hdl
  | body text asr ex =>
    exact Or.inr (Or.inl (mem_validateTextLength_field hdl))
  | footer _ _ =>
    exact Or.inr (Or.inr (Or.inl (mem_validateTextLength_field hdl)))
  | buttons bs =>
    simp only [charLimitsComponent, List.mem_flatten, List.mem_map] at hdl
    obtain ⟨l2, ⟨p, hp, rfl⟩, hdl2⟩ := hdl
    right; right; right
    refine ⟨p.1, ?_⟩
    split at hdl2
    · split at hdl2
      · exact mem_validateTextLength_field hdl2
      · simp at hdl2
    · simp at hdl2

/-- Every diagnostic of pass 6 carries the field `buttons`. -/
theorem btnComb_field {t : WhatsAppTemplate} {d : ValidationError}
    (hd : d ∈ validateButtonCombinations t) : d.field = "buttons" := by
  simp only [validateButtonCombinations] at hd
  rcases hfb : findButtons t.components with _ | bs <;> rw [hfb] at hd
  · simp at hd
  · simp only [List.mem_append] at hd
    rcases hd with ((hd | hd) | hd) | hd <;> split at hd <;> simp_all [mkError]

/-- Every diagnostic of pass 7 carries the field `header.example.header_url`. -/
theorem media_field {t : WhatsAppTemplate} {d : ValidationError}
    (hd : d ∈ validateMediaRequirements t) : d.field = "header.example.header_url" := by
  simp only [validateMediaRequirements] at hd
  rcases hh : t.components.find? Component.isHeader with _ | c <;> simp only [hh] at hd
  · simp at hd
  · cases c with
    | header fmt txt ex =>
      rcases fmt with _ | f
      · simp at hd
      · simp only at hd
        split at hd
        · simp at hd
        · split at hd
          · split at hd
            · simp_all [mkError]
            · rename_i u tail heq hne
              cases f <;> simp only [extensionCheck] at hd <;> simp_all [mkError]
          · simp_all [mkError]
    | body _ _ _ => simp at hd
    | footer _ _ => simp at hd
    | buttons _ => simp at hd

/-- Every diagnostic of pass 8 carries the TTL field. -/
theorem ttlSettings_field {t : WhatsAppTemplate} {d : ValidationError}
    (hd : d ∈ validateTTLSettings t) : d.field = "messageSendTtlSeconds" := by
  simp only [validateTTLSettings] at hd
  rcases ht : t.messageSendTtlSeconds with _ | ttl <;> simp only [ht] at hd
  · simp_all [mkInfo]
  · split at hd
    · simp_all [mkInfo]
    · simp only [List.mem_append] at hd
      rcases hd with hd | hd <;> split at hd <;> simp_all [mkError]

/-- With TTL 1000 the general TTL pass emits nothing at all. -/
theorem ttlSettings_1000 {t : WhatsAppTemplate}
    (ht : t.messageSendTtlSeconds = some 1000) : validateTTLSettings t = [] := by
  simp [validateTTLSettings, ht]

/-! ## Claim C5 -/

/-- C5: for an AUTHENTICATION template with TTL 1000 the whole report contains
exactly one error-severity diagnostic with field `messageSendTtlSeconds` — the
category pass rejects the value (outside 30..900) while the general TTL pass
(30..2592000) stays silent and no other pass uses that field. -/
theorem c5_auth_ttl_1000_exactly_one_error (t : WhatsAppTemplate)
    (hc : t.category = .AUTHENTICATION) (ht : t.messageSendTtlSeconds = some 1000) :
    ((validate t).errors.countP fun d => d.field == "messageSendTtlSeconds") = 1 := by
  rw [validate_errors_countP]
  simp only [runPasses]
  rw [errFieldCount_append, errFieldCount_append, errFieldCount_append,
    errFieldCount_append, errFieldCount_append, errFieldCount_append, errFieldCount_append]
  rw [errFieldCount_basicStructure t (by decide)]
  rw [errFieldCount_auth_ttl1000 hc ht]
  rw [ttlSettings_1000 ht]
  have h3 : errFieldCount (validateComponentCombinations t) "messageSendTtlSeconds" = 0 := by
    apply errFieldCount_eq_zero
    intro d hd
    refine Or.inr ?_
    rcases comb_error_fields hd with h | h | ⟨i, h | h⟩ <;> rw [h]
    · decide
    · decide
    · exact btnField_ne i ".package_name" (by decide)
    · exact btnField_ne i ".zero_tap_terms_accepted" (by decide)
  have h4 : errFieldCount (validateVariableUsage t) "messageSendTtlSeconds" = 0 := by
    apply errFieldCount_eq_zero
    intro d hd
    refine Or.inr ?_
    rcases varUsage_fields hd with h | h | ⟨i, h⟩ <;> rw [h]
    · decide
    · decide
    · exact btnField_ne i ".url" (by decide)
  have h5 : errFieldCount (validateCharacterLimits t) "messageSendTtlSeconds" = 0 := by
    apply errFieldCount_eq_zero
    intro d hd
    refine Or.inr ?_
    rcases charLimits_fields hd with h | h | h | ⟨i, h⟩ <;> rw [h]
    · decide
    · decide
    · decide
    · exact btnField_ne i ".text" (by decide)
  have h6 : errFieldCount (validateButtonCombinations t) "messageSendTtlSeconds" = 0 := by
    apply errFieldCount_eq_zero
    intro d hd
    exact Or.inr (by rw [btnComb_field hd]; decide)
  have h7 : errFieldCount (validateMediaRequirements t) "messageSendTtlSeconds" = 0 := by
    apply errFieldCount_eq_zero
    intro d hd
    exact Or.inr (by rw [media_field hd]; decide)
  rw [h3, h4, h5, h6, h7]
  simp [errFieldCount]

/-- Concrete AUTHENTICATION template with TTL 1000 used as the C5 witness. -/
def c5Template : WhatsAppTemplate :=
  { wabaId := none, name := "t", language := "en", category := .AUTHENTICATION,
    subCategory := none, messageSendTtlSeconds := some 1000,
    components := [.body "hi" none none] }

/-- C5 witness: the exact-count statement discharged on `c5Template`. -/
theorem c5_auth_ttl_1000_exactly_one_error_witness :
    c5Template.category = .AUTHENTICATION ∧
      c5Template.messageSendTtlSeconds = some 1000 ∧
      ((validate c5Template).errors.countP fun d => d.field == "messageSendTtlSeconds") = 1 :=
  ⟨rfl, rfl, c5_auth_ttl_1000_exactly_one_error c5Template rfl rfl⟩

/-! ## Claim C2 -/

/-- The OTP conditional-field half of pass 3 only produces `buttons[i]...`
fields. -/
theorem otpPart_fields {bs : List Button} {d : ValidationError}
    (hd : d ∈ (bs.enum.map fun p => otpButtonCheck p.1 p.2).flatten) :
    ∃ i, d.field = btnField i ".package_name" ∨
      d.field = btnField i ".zero_tap_terms_accepted" := by
  simp only [List.mem_flatten, List.mem_map] at hd
  obtain ⟨l, ⟨p, hp, rfl⟩, hdl⟩ := hd
  refine ⟨p.1, ?_⟩
  rcases p with ⟨i, b⟩
  cases b with
  | otp ot bt at' pkg sig zt =>
    simp only [otpButtonCheck, List.mem_append] at hdl
    rcases hdl with hdl | hdl <;> split at hdl <;> simp_all [mkError]
  | quick_reply _ => simp [otpButtonCheck] at hdl
  | url _ _ _ => simp [otpButtonCheck] at hdl
  | phone_number _ _ => simp [otpButtonCheck] at hdl
  | copy_code _ => simp [otpButtonCheck] at hdl
  | catalog => simp [otpButtonCheck] at hdl
  | mpm => simp [otpButtonCheck] at hdl
  | flow _ _ _ _ => simp [otpButtonCheck] at hdl
  | order_details => simp [otpButtonCheck] at hdl
  | voice_call _ => simp [otpButtonCheck] at hdl

/-- When the first header has LOCATION format and its example URL array is
present, pass 3 contributes no error on `header.example.header_url` (the
URL-presence guard is off and all its other fields differ). -/
theorem comb_location_with_url {t : WhatsAppTemplate} {txt : Option String}
    {ex : Option TemplateExample}
    (hh : t.components.find? Component.isHeader =
      some (.header (some .LOCATION) txt ex))
    (hu : (exampleHeaderUrl ex).isSome) :
    errFieldCount (validateComponentCombinations t) "header.example.header_url" = 0 := by
  apply errFieldCount_eq_zero
  intro d hd
  refine Or.inr ?_
  simp only [validateComponentCombinations, List.mem_append] at hd
  rcases hd with hd | hd
  · simp only [hh, List.mem_append] at hd
    rcases hd with hd | hd
    · split at hd <;> simp_all [mkError]
    · split at hd
      · rename_i hcond
        rw [Option.isNone_iff_eq_none] at hcond
        rw [hcond.2] at hu
        simp at hu
      · simp at hd
  · rcases hfb : findButtons t.components with _ | bs <;> rw [hfb] at hd
    · simp at hd
    · rcases otpPart_fields hd with ⟨i, h | h⟩ <;> rw [h]
      · exact btnField_ne i ".package_name" (by decide)
      · exact btnField_ne i ".zero_tap_terms_accepted" (by decide)

/-- When the first header has LOCATION format and a nonempty first example
URL, pass 7 emits nothing: the URL-presence guard is satisfied and LOCATION
has no extension case. -/
theorem media_location_with_url {t : WhatsAppTemplate} {txt : Option String}
    {ex : Option TemplateExample} {u : String} {us : List String}
    (hh : t.components.find? Component.isHeader =
      some (.header (some .LOCATION) txt ex))
    (hu : exampleHeaderUrl ex = some (u :: us)) (hne : u ≠ "") :
    validateMediaRequirements t = [] := by
  simp only [validateMediaRequirements, hh, hu]
  simp [hne, extensionCheck]

/-- C2 counterexample: a template whose HEADER has format LOCATION and no
example URL receives two error-severity diagnostics with field
`header.example.header_url` (one from the combination pass, one from the
media pass), so the media pass does impose a URL requirement on LOCATION. -/
def c2LocationNoUrl : WhatsAppTemplate :=
  { wabaId := none, name := "t", language := "en", category := .MARKETING,
    subCategory := none, messageSendTtlSeconds := none,
    components := [.header (some .LOCATION) none none, .body "hi" none none] }

/-- C2 counterexample theorem: the LOCATION header without a URL yields
error-severity diagnostics on `header.example.header_url`, refuting the claim
that validate never emits such an error for LOCATION headers. -/
theorem c2_counterexample :
    c2LocationNoUrl.components.find? Component.isHeader =
        some (.header (some .LOCATION) none none) ∧
      ((validate c2LocationNoUrl).errors.countP
        fun d => d.field == "header.example.header_url") = 2 := by
  decide

/-- C2 amended: for a template whose HEADER has format LOCATION AND a
nonempty example URL, validate emits no error-severity diagnostic with field
`header.example.header_url`; the URL-presence requirement applies to every
non-TEXT format including LOCATION, while only the extension requirements are
limited to IMAGE, VIDEO and DOCUMENT. -/
theorem c2_location_with_url_no_url_error (t : WhatsAppTemplate)
    (txt : Option String) (ex : Option TemplateExample) (u : String) (us : List String)
    (hh : t.components.find? Component.isHeader =
      some (.header (some .LOCATION) txt ex))
    (hu : exampleHeaderUrl ex = some (u :: us)) (hne : u ≠ "") :
    ((validate t).errors.countP fun d => d.field == "header.example.header_url") = 0 := by
  rw [validate_errors_countP]
  simp only [runPasses]
  rw [errFieldCount_append, errFieldCount_append, errFieldCount_append,
    errFieldCount_append, errFieldCount_append, errFieldCount_append, errFieldCount_append]
  rw [errFieldCount_basicStructure t (by decide)]
  rw [errFieldCount_catRules_ne t (by decide)]
  rw [comb_location_with_url hh (by simp [hu])]
  rw [media_location_with_url hh hu hne]
  have h4 : errFieldCount (validateVariableUsage t) "header.example.header_url" = 0 := by
    apply errFieldCount_eq_zero
    intro d hd
    refine Or.inr ?_
    rcases varUsage_fields hd with h | h | ⟨i, h⟩ <;> rw [h]
    · decide
    · decide
    · exact btnField_ne i ".url" (by decide)
  have h5 : errFieldCount (validateCharacterLimits t) "header.example.header_url" = 0 := by
    apply errFieldCount_eq_zero
    intro d hd
    refine Or.inr ?_
    rcases charLimits_fields hd with h | h | h | ⟨i, h⟩ <;> rw [h]
    · decide
    · decide
    · decide
    · exact btnField_ne i ".text" (by decide)
  have h6 : errFieldCount (validateButtonCombinations t) "header.example.header_url" = 0 := by
    apply errFieldCount_eq_zero
    intro d hd
    exact Or.inr (by rw [btnComb_field hd]; decide)
  have h8 : errFieldCount (validateTTLSettings t) "header.example.header_url" = 0 := by
    apply errFieldCount_eq_zero
    intro d hd
    exact Or.inr (by rw [ttlSettings_field hd]; decide)
  rw [h4, h5, h6, h8]
  simp [errFieldCount]

/-- Concrete LOCATION template with a URL used as the C2 witness. -/
def c2LocationWithUrl : WhatsAppTemplate :=
  { wabaId := none, name := "t", language := "en", category := .MARKETING,
    subCategory := none, messageSendTtlSeconds := none,
    components :=
      [.header (some .LOCATION) none
        (some { header_text := none, header_url := some ["https://example.com/place"],
                body_text := none }),
       .body "hi" none none] }

/-- C2 amended witness: the amended statement discharged on
`c2LocationWithUrl`. -/
theorem c2_location_with_url_no_url_error_witness :
    ((validate c2LocationWithUrl).errors.countP
      fun d => d.field == "header.example.header_url") = 0 :=
  c2_location_with_url_no_url_error c2LocationWithUrl none
    (some { header_text := none, header_url := some ["https://example.com/place"],
            body_text := none })
    "https://example.com/place" [] (by decide) (by decide) (by decide)

/-! ## Claim C6 -/

/-- C6: whenever the BUTTONS component of a template holds more than one
PHONE_NUMBER button, the report contains an error-severity diagnostic with
field `buttons` (from the button-combinations pass). -/
theorem c6_phone_number_cap (t : WhatsAppTemplate) (bs : List Button)
    (hb : findButtons t.components = some bs)
    (hp : bs.countP Button.isPhoneNumber > 1) :
    ((validate t).errors.any fun d => d.field == "buttons") = true := by
  have hmem6 : mkError "buttons" "Maximum 1 phone number button allowed"
      (some "Remove extra phone number buttons") ∈ validateButtonCombinations t := by
    simp only [validateButtonCombinations, hb]
    simp [hp]
  have hrun : mkError "buttons" "Maximum 1 phone number button allowed"
      (some "Remove extra phone number buttons") ∈ runPasses t := by
    simp only [runPasses, List.mem_append]
    tauto
  rw [List.any_eq_true]
  refine ⟨mkError "buttons" "Maximum 1 phone number button allowed"
    (some "Remove extra phone number buttons"), ?_, by simp [mkError]⟩
  simp only [validate, List.mem_filter]
  exact ⟨hrun, by simp [mkError]⟩

/-- Concrete template with two PHONE_NUMBER buttons used as the C6 witness. -/
def c6TwoPhones : WhatsAppTemplate :=
  { wabaId := none, name := "t", language := "en", category := .UTILITY,
    subCategory := none, messageSendTtlSeconds := none,
    components :=
      [.body "hi" none none,
       .buttons [.phone_number "Call us" "+15550001111",
                 .phone_number "Call me" "+15550002222"]] }

/-- C6 witness: the statement discharged on `c6TwoPhones`. -/
theorem c6_phone_number_cap_witness :
    findButtons c6TwoPhones.components =
        some [Button.phone_number "Call us" "+15550001111",
              Button.phone_number "Call me" "+15550002222"] ∧
      ((validate c6TwoPhones).errors.any fun d => d.field == "buttons") = true :=
  ⟨by decide,
    c6_phone_number_cap c6TwoPhones
      [Button.phone_number "Call us" "+15550001111",
       Button.phone_number "Call me" "+15550002222"] (by decide) (by decide)⟩

/-! ## Claim C7 -/

/-- C7: any template whose BODY text is `Hi ((1)), ((3))` (with doubled braces
where this comment shows doubled parentheses) receives an error-severity
diagnostic with field `body.text` whose message literally enumerates the found
placeholders: `... Found: ((1)), ((3))`. -/
theorem c7_found_message (t : WhatsAppTemplate) (asr : Option Bool)
    (ex : Option TemplateExample)
    (hb : Component.body "Hi \x7b\x7b1\x7d\x7d, \x7b\x7b3\x7d\x7d" asr ex ∈ t.components) :
    ((validate t).errors.any fun d => d.field == "body.text" &&
      d.message ==
        "Variables must be sequential starting from \x7b\x7b1\x7d\x7d. Found: \x7b\x7b1\x7d\x7d, \x7b\x7b3\x7d\x7d") = true := by
  have hvv : validateVariablesInText "Hi \x7b\x7b1\x7d\x7d, \x7b\x7b3\x7d\x7d" "body.text" =
      [mkError "body.text"
        "Variables must be sequential starting from \x7b\x7b1\x7d\x7d. Found: \x7b\x7b1\x7d\x7d, \x7b\x7b3\x7d\x7d"
        (some "Use variables \x7b\x7b1\x7d\x7d, \x7b\x7b2\x7d\x7d, \x7b\x7b3\x7d\x7d, etc. in sequence")] := by
    decide
  have hcomp : mkError "body.text"
      "Variables must be sequential starting from \x7b\x7b1\x7d\x7d. Found: \x7b\x7b1\x7d\x7d, \x7b\x7b3\x7d\x7d"
      (some "Use variables \x7b\x7b1\x7d\x7d, \x7b\x7b2\x7d\x7d, \x7b\x7b3\x7d\x7d, etc. in sequence") ∈
      varUsageComponent (.body "Hi \x7b\x7b1\x7d\x7d, \x7b\x7b3\x7d\x7d" asr ex) := by
    simp only [varUsageComponent]
    rw [if_pos (by decide), hvv]
    simp
  have hmem : mkError "body.text"
      "Variables must be sequential starting from \x7b\x7b1\x7d\x7d. Found: \x7b\x7b1\x7d\x7d, \x7b\x7b3\x7d\x7d"
      (some "Use variables \x7b\x7b1\x7d\x7d, \x7b\x7b2\x7d\x7d, \x7b\x7b3\x7d\x7d, etc. in sequence") ∈
      validateVariableUsage t := by
    simp only [validateVariableUsage, List.mem_flatten]
    exact ⟨varUsageComponent (.body "Hi \x7b\x7b1\x7d\x7d, \x7b\x7b3\x7d\x7d" asr ex),
      List.mem_map_of_mem _ hb, hcomp⟩
  have hrun : mkError "body.text"
      "Variables must be sequential starting from \x7b\x7b1\x7d\x7d. Found: \x7b\x7b1\x7d\x7d, \x7b\x7b3\x7d\x7d"
      (some "Use variables \x7b\x7b1\x7d\x7d, \x7b\x7b2\x7d\x7d, \x7b\x7b3\x7d\x7d, etc. in sequence") ∈
      runPasses t := by
    simp only [runPasses, List.mem_append]
    tauto
  rw [List.any_eq_true]
  refine ⟨mkError "body.text"
    "Variables must be sequential starting from \x7b\x7b1\x7d\x7d. Found: \x7b\x7b1\x7d\x7d, \x7b\x7b3\x7d\x7d"
    (some "Use variables \x7b\x7b1\x7d\x7d, \x7b\x7b2\x7d\x7d, \x7b\x7b3\x7d\x7d, etc. in sequence"),
    ?_, by simp [mkError]⟩
  simp only [validate, List.mem_filter]
  exact ⟨hrun, by simp [mkError]⟩

/-- Concrete template carrying the C7 body text, used as the witness. -/
def c7Template : WhatsAppTemplate :=
  { wabaId := none, name := "t", language := "en", category := .UTILITY,
    subCategory := none, messageSendTtlSeconds := none,
    components := [.body "Hi \x7b\x7b1\x7d\x7d, \x7b\x7b3\x7d\x7d" none none] }

/-- C7 witness: the statement discharged on `c7Template`. -/
theorem c7_found_message_witness :
    Component.body "Hi \x7b\x7b1\x7d\x7d, \x7b\x7b3\x7d\x7d" none none ∈ c7Template.components ∧
      ((validate c7Template).errors.any fun d => d.field == "body.text" &&
        d.message ==
          "Variables must be sequential starting from \x7b\x7b1\x7d\x7d. Found: \x7b\x7b1\x7d\x7d, \x7b\x7b3\x7d\x7d") = true :=
  ⟨by decide, c7_found_message c7Template none none (by decide)⟩
